import Mathlib

/-!
Shallow embedding of the security event monitoring engine of
`src/app/chrome-extension/services/security-monitor.ts` (class `SecurityMonitor`),
together with proofs settling the frozen claims about it.

Conventions of the embedding:
* JS numbers are modelled as exact rationals (`ℚ`); timestamps, which the code
  only ever adds, subtracts and compares as millisecond integers, as `ℤ`.
* JS runtime exceptions are modelled as `Except Unit` errors; `try/catch` as an
  explicit `tryCatch` combinator.
* All `Date.now()` reads within one call of an operation are modelled as a single
  instant `now` passed as a parameter.
-/

/-! ## JavaScript value model -/

/-- A JavaScript runtime value as it flows through indicator evaluation.
A regex value is represented by its match predicate (`RegExp.test`), since no
claim depends on the matching semantics of a particular pattern. -/
inductive JSValue where
  | vUndefined : JSValue
  | vNull : JSValue
  | vBool (b : Bool) : JSValue
  | vNum (q : ℚ) : JSValue
  | vStr (s : String) : JSValue
  | vRegex (test : String → Bool) : JSValue

/-- `typeof v === 'string'`. -/
def JSValue.isStr : JSValue → Bool
  | .vStr _ => true
  | _ => false

/-- `typeof v === 'number'`. -/
def JSValue.isNum : JSValue → Bool
  | .vNum _ => true
  | _ => false

/-- `v instanceof RegExp` (equivalently: `v` has a callable `test` method in the
value grammar of this model). -/
def JSValue.isRegex : JSValue → Bool
  | .vRegex _ => true
  | _ => false

/-- JavaScript strict equality `===` on the modelled value grammar.  Two regex
values are distinct object references at every call site of `compareValues`
(the actual value comes from an event field, the expected one from the static
pattern table), so they compare unequal. -/
def jsStrictEq : JSValue → JSValue → Bool
  | .vUndefined, .vUndefined => true
  | .vNull, .vNull => true
  | .vBool a, .vBool b => a == b
  | .vNum a, .vNum b => a == b
  | .vStr a, .vStr b => a == b
  | _, _ => false

/-- JavaScript `ToString` on the modelled grammar, used by
`String.prototype.includes` to coerce a non-regex search argument.  Number
formatting is modelled for integral values only; no configured indicator and no
claim exercises string coercion of a fractional number. -/
def jsToString : JSValue → String
  | .vUndefined => "undefined"
  | .vNull => "null"
  | .vBool b => if b then "true" else "false"
  | .vNum q => if q.den = 1 then toString q.num else toString q
  | .vStr s => s
  | .vRegex _ => ""

/-- JavaScript `ToNumber` on the modelled grammar (`NaN` is `none`).  String
coercion is modelled for simple unsigned integer literals only; no configured
indicator and no claim exercises numeric coercion of other strings. -/
def jsToNumber : JSValue → Option ℚ
  | .vUndefined => none
  | .vNull => some 0
  | .vBool b => some (if b then 1 else 0)
  | .vNum q => some q
  | .vStr s => (s.toNat?).map fun n => (n : ℚ)
  | .vRegex _ => none

/-- JavaScript `a > e` for a number `a`: the right operand is coerced to a
number and the comparison is false when the coercion yields `NaN`. -/
def jsNumGt (a : ℚ) (e : JSValue) : Bool :=
  match jsToNumber e with
  | some q => decide (q < a)
  | none => false

/-- JavaScript `a < e` for a number `a`. -/
def jsNumLt (a : ℚ) (e : JSValue) : Bool :=
  match jsToNumber e with
  | some q => decide (a < q)
  | none => false

/-- `SecurityMonitor.compareValues` (source lines 482–497), with JavaScript
runtime errors made explicit:
* `'contains'` guards `typeof actual === 'string'` and then calls
  `actual.includes(expected)`, which throws a `TypeError` when `expected` is a
  `RegExp` and otherwise coerces `expected` to a string;
* `'regex'` guards only the actual value and then calls `expected.test(actual)`,
  which throws a `TypeError` when `expected` has no callable `test` method;
* the `default` branch of the `switch` returns `false`. -/
def compareValues (actual : JSValue) (op : String) (expected : JSValue) :
    Except Unit Bool :=
  if op = "equals" then .ok (jsStrictEq actual expected)
  else if op = "contains" then
    match actual with
    | .vStr s =>
      match expected with
      | .vRegex _ => .error ()
      | e => .ok (s.containsSubstr (jsToString e))
    | _ => .ok false
  else if op = "greater_than" then
    match actual with
    | .vNum a => .ok (jsNumGt a expected)
    | _ => .ok false
  else if op = "less_than" then
    match actual with
    | .vNum a => .ok (jsNumLt a expected)
    | _ => .ok false
  else if op = "regex" then
    match actual with
    | .vStr s =>
      match expected with
      | .vRegex t => .ok (t s)
      | _ => .error ()
    | _ => .ok false
  else .ok false

/-! ## Events -/

/-- The `type` union of `SecurityEvent`. -/
inductive EventType where
  | authentication | permission | network | data_access | tool_usage | system
  deriving DecidableEq, Repr

/-- The string literal an `EventType` denotes in the source. -/
def EventType.str : EventType → String
  | .authentication => "authentication"
  | .permission => "permission"
  | .network => "network"
  | .data_access => "data_access"
  | .tool_usage => "tool_usage"
  | .system => "system"

/-- The `severity` union of `SecurityEvent`. -/
inductive Severity where
  | low | medium | high | critical
  deriving DecidableEq, Repr

/-- The string literal a `Severity` denotes in the source. -/
def Severity.str : Severity → String
  | .low => "low"
  | .medium => "medium"
  | .high => "high"
  | .critical => "critical"

/-- The `SecurityEvent` interface (source lines 8–20).  The `details` payload is
an opaque JS value; no claim depends on its inner structure. -/
structure SecurityEvent where
  id : String
  type : EventType
  severity : Severity
  timestamp : ℤ
  source : String
  details : JSValue
  userAgent : Option String := none
  ipAddress : Option String := none
  resolved : Option Bool := none
  resolvedBy : Option String := none
  resolvedAt : Option ℤ := none

/-- The argument of `logEvent`: a `SecurityEvent` minus `id` and `timestamp`
(`Omit<SecurityEvent, 'id' | 'timestamp'>`). -/
structure EventIn where
  type : EventType
  severity : Severity
  source : String
  details : JSValue

/-- `MAX_STORED_EVENTS` (source line 50). -/
def MAX_STORED_EVENTS : ℕ := 1000

/-- `ANOMALY_THRESHOLD` (source line 51), in standard deviations. -/
def ANOMALY_THRESHOLD : ℚ := 3

/-- `HIGH_FREQUENCY_THRESHOLD` (source line 52), events per 24h window. -/
def HIGH_FREQUENCY_THRESHOLD : ℕ := 10

/-- `RATE_LIMIT_WINDOW` (source line 53), milliseconds. -/
def RATE_LIMIT_WINDOW : ℤ := 1000

/-- `RATE_LIMIT_MAX_EVENTS` (source line 54). -/
def RATE_LIMIT_MAX_EVENTS : ℕ := 5

/-- `generateEventId` (source lines 721–723).  The random base-36 suffix is
environment entropy and is not modelled; no claim inspects event ids. -/
def generateEventId (now : ℤ) : String :=
  "evt_" ++ toString now

/-- The completion of an `EventIn` into a full `SecurityEvent` performed by
`logEvent` (source lines 212–216): the engine assigns `id` and `timestamp`.
The optional `userAgent` stamp from `navigator` is host-environment data and is
not modelled. -/
def mkFullEvent (e : EventIn) (now : ℤ) : SecurityEvent :=
  { id := generateEventId now
    type := e.type
    severity := e.severity
    timestamp := now
    source := e.source
    details := e.details }

/-! ## Event store appends -/

/-- The store append performed by `logEvent` (source lines 224–230):
`events.push(fullEvent)` followed by `events.splice(0, events.length - MAX_STORED_EVENTS)`
whenever the length exceeds the cap, i.e. the oldest surplus prefix is dropped. -/
def storeAppend (events : List SecurityEvent) (e : SecurityEvent) :
    List SecurityEvent :=
  let es := events ++ [e]
  if MAX_STORED_EVENTS < es.length then es.drop (es.length - MAX_STORED_EVENTS) else es

/-- The store append performed by `handleThreatDetection` (source lines
530–533): `events.push(threatEvent)` followed directly by `setItem`, with no
capacity eviction. -/
def detectAppend (events : List SecurityEvent) (e : SecurityEvent) :
    List SecurityEvent :=
  events ++ [e]

/-! ## Threat pattern table and indicator evaluation -/

/-- One entry of a `ThreatPattern.indicators` list (source lines 35–41).
`type`, `field` and `op` are plain strings in the source (`operator` there). -/
structure Indicator where
  type : String
  field : String
  op : String
  value : JSValue
  weight : ℚ

/-- The `action` union of `ThreatPattern`. -/
inductive PatternAction where
  | log | alert | block
  deriving DecidableEq, Repr

/-- The `ThreatPattern` interface (source lines 31–44). -/
structure ThreatPattern where
  id : String
  name : String
  description : String
  indicators : List Indicator
  threshold : ℚ
  action : PatternAction

/-- The first entry of the static `threatPatterns` table (source lines 60–75). -/
def rapidToolUsagePattern : ThreatPattern :=
  { id := "rapid_tool_usage"
    name := "Rapid Tool Usage"
    description := "Unusually high frequency of tool usage"
    indicators :=
      [ { type := "tool_usage", field := "count_per_minute",
          op := "greater_than", value := .vNum 20, weight := 1 } ]
    threshold := 1
    action := .alert }

/-- The static `threatPatterns` table (source lines 59–151). -/
def threatPatterns : List ThreatPattern :=
  [ rapidToolUsagePattern
  , { id := "failed_authentication"
      name := "Failed Authentication Attempts"
      description := "Multiple failed authentication attempts from external sources"
      indicators :=
        [ { type := "authentication", field := "success",
            op := "equals", value := .vBool false, weight := 3/10 }
        , { type := "authentication", field := "source",
            op := "equals", value := .vStr "external_auth", weight := 8/10 }
        , { type := "authentication", field := "count_per_hour",
            op := "greater_than", value := .vNum 10, weight := 1 } ]
      threshold := 3/2
      action := .alert }
  , { id := "suspicious_network_activity"
      name := "Suspicious Network Activity"
      description := "Network requests to unusual domains"
      indicators :=
        [ { type := "network", field := "domain",
            op := "regex", value := .vRegex (fun _ => false), weight := 8/10 }
        , { type := "network", field := "protocol",
            op := "equals", value := .vStr "http", weight := 3/10 } ]
      threshold := 8/10
      action := .alert }
  , { id := "permission_escalation"
      name := "Permission Escalation Attempt"
      description := "Attempt to escalate permissions without user consent"
      indicators :=
        [ { type := "permission", field := "escalation",
            op := "equals", value := .vBool true, weight := 1 }
        , { type := "permission", field := "consent_bypassed",
            op := "equals", value := .vBool true, weight := 2 } ]
      threshold := 1
      action := .block }
  , { id := "data_exfiltration"
      name := "Potential Data Exfiltration"
      description := "Large amounts of data being accessed or transmitted"
      indicators :=
        [ { type := "data_access", field := "size_mb",
            op := "greater_than", value := .vNum 10, weight := 7/10 }
        , { type := "network", field := "upload_size_mb",
            op := "greater_than", value := .vNum 5, weight := 1 } ]
      threshold := 1
      action := .alert }
  ]

/-- Property lookup of a single key on a `SecurityEvent` object, as performed by
`getNestedValue` (source lines 502–504): an absent property yields `undefined`.
Optional fields that are unset also read as `undefined`. -/
def eventProp (e : SecurityEvent) (key : String) : JSValue :=
  if key = "id" then .vStr e.id
  else if key = "type" then .vStr e.type.str
  else if key = "severity" then .vStr e.severity.str
  else if key = "timestamp" then .vNum (e.timestamp : ℚ)
  else if key = "source" then .vStr e.source
  else if key = "details" then e.details
  else if key = "userAgent" then (e.userAgent.map JSValue.vStr).getD .vUndefined
  else if key = "ipAddress" then (e.ipAddress.map JSValue.vStr).getD .vUndefined
  else .vUndefined

/-- `getNestedValue` (source lines 502–504): the dotted path is split and walked
with `current?.[key]`.  Every field path in the configured pattern table is a
single segment, so only the first segment resolves against the event object;
deeper segments on a non-object value yield `undefined` (property access on
primitive wrapper objects is not modelled — no configured path reaches it). -/
def getNestedValue (e : SecurityEvent) (path : String) : JSValue :=
  match path.splitOn "." with
  | [] => .vUndefined
  | key :: rest => rest.foldl (fun _ _ => JSValue.vUndefined) (eventProp e key)

/-- `matchesIndicator` (source lines 450–477): the aggregate fields
`count_per_minute` / `count_per_hour` count recent events of the triggering
event's type inside the trailing window; any other field resolves on the event
itself.  The comparison may throw (via `compareValues`), which propagates. -/
def matchesIndicator (ind : Indicator) (e : SecurityEvent)
    (recentEvents : List SecurityEvent) (now : ℤ) : Except Unit Bool :=
  if ind.field = "count_per_minute" then
    let count := (recentEvents.filter fun x =>
      decide (now - 60 * 1000 < x.timestamp) && decide (x.type = e.type)).length
    compareValues (.vNum (count : ℚ)) ind.op ind.value
  else if ind.field = "count_per_hour" then
    let count := (recentEvents.filter fun x =>
      decide (now - 60 * 60 * 1000 < x.timestamp) && decide (x.type = e.type)).length
    compareValues (.vNum (count : ℚ)) ind.op ind.value
  else
    compareValues (getNestedValue e ind.field) ind.op ind.value

/-- `evaluateThreatPattern` (source lines 429–445): sum the weights of the
indicators whose `type` equals the event's type and whose condition matches. -/
def evaluateThreatPattern (p : ThreatPattern) (e : SecurityEvent)
    (recentEvents : List SecurityEvent) (now : ℤ) : Except Unit ℚ :=
  p.indicators.foldlM
    (fun score ind =>
      if ind.type = e.type.str then do
        let b ← matchesIndicator ind e recentEvents now
        pure (if b then score + ind.weight else score)
      else pure score)
    0

/-- The synthetic detection record written by `handleThreatDetection` (source
lines 514–528).  Its `details` object is opaque to every claim. -/
def threatEventRec (p : ThreatPattern) (now : ℤ) : SecurityEvent :=
  { id := generateEventId now
    type := .system
    severity := .high
    timestamp := now
    source := "security_monitor"
    details := .vStr p.name }

/-! ## Rate limiter -/

/-- `shouldRateLimit` (source lines 182–197) as a function of the current time
and the static `rateLimitTimestamps` list: timestamps outside the 1-second
window are discarded; if the remaining count has reached the cap the call is
rejected (`true`) with no timestamp recorded, otherwise the current timestamp
is recorded and the call is admitted (`false`). -/
def rlStep (now : ℤ) (ts : List ℤ) : Bool × List ℤ :=
  let kept := ts.filter fun t => decide (now - t < RATE_LIMIT_WINDOW)
  if RATE_LIMIT_MAX_EVENTS ≤ kept.length then (true, kept)
  else (false, kept ++ [now])

/-- The admission gate of `logEvent` (source line 208):
`event.severity === 'low' && this.shouldRateLimit()`, with the short-circuit —
non-low events never touch the rate limiter.  Returns (admitted, new list). -/
def logGate (sev : Severity) (now : ℤ) (ts : List ℤ) : Bool × List ℤ :=
  if sev = .low then
    let r := rlStep now ts
    (!r.1, r.2)
  else (true, ts)

/-- A run of `logEvent` admission decisions over a sequence of (severity,
`Date.now()`) pairs, starting from a rate-limiter state and the list of
timestamps of low-severity events admitted so far. -/
def runRL : List (Severity × ℤ) → List ℤ → List ℤ → List ℤ × List ℤ
  | [], ts, adm => (ts, adm)
  | (s, t) :: rest, ts, adm =>
    if s = .low then
      let r := rlStep t ts
      runRL rest r.2 (if r.1 then adm else adm ++ [t])
    else runRL rest ts adm

/-- Number of entries of `l` inside the rolling 1-second window ending at `T`. -/
def winCount (l : List ℤ) (T : ℤ) : ℕ :=
  (l.filter fun t => decide (T - RATE_LIMIT_WINDOW < t) && decide (t ≤ T)).length

/-- `timesMonoB t0 run` holds when the clock readings of `run` are nondecreasing
and bounded below by `t0` (`Date.now()` is monotone). -/
def timesMonoB : ℤ → List (Severity × ℤ) → Bool
  | _, [] => true
  | t0, (_, t) :: rest => decide (t0 ≤ t) && timesMonoB t rest

/-! ## Metrics aggregator -/

/-- The `threatLevel` union of `SecurityMetrics`. -/
inductive ThreatLevel where
  | low | medium | high | critical
  deriving DecidableEq, Repr

/-- The `SecurityMetrics` interface (source lines 22–29).  The JS counting
objects `eventsByType` / `eventsBySeverity` are modelled as total count
functions (an absent key reads as count zero). -/
structure SecurityMetrics where
  totalEvents : ℕ
  eventsByType : EventType → ℕ
  eventsBySeverity : Severity → ℕ
  lastEventTime : ℤ
  suspiciousActivityScore : ℤ
  threatLevel : ThreatLevel

/-- The base score by severity (source line 383); the `|| 0` fallback is
unreachable since every severity is in the table. -/
def sevScore : Severity → ℚ
  | .low => 1
  | .medium => 5
  | .high => 15
  | .critical => 25

/-- The type-specific multiplier (source lines 393–400); the `|| 1.0` fallback
is unreachable since every event type is in the table. -/
def typeMult : EventType → ℚ
  | .authentication => 3/2
  | .permission => 2
  | .network => 6/5
  | .data_access => 9/5
  | .tool_usage => 1
  | .system => 13/10

/-- `Math.round`: Mathlib's `round` on `ℚ` is `⌊q + 1/2⌋`, which agrees with
JavaScript's round-half-toward-positive-infinity everywhere. -/
def jsRound (q : ℚ) : ℤ := round q

/-- `calculateSuspiciousActivityScore` (source lines 377–408) over an event
list: accumulate `base * timeDecay * typeMultiplier` per event, then round and
clamp to 100. -/
def calculateSuspiciousActivityScore (events : List SecurityEvent) (now : ℤ) : ℤ :=
  let score := events.foldl
    (fun acc e =>
      let ageHours : ℚ := ((now : ℚ) - (e.timestamp : ℚ)) / (60 * 60 * 1000)
      let timeMultiplier : ℚ := max (1/10) (1 - ageHours / 24)
      acc + sevScore e.severity * timeMultiplier * typeMult e.type)
    0
  min 100 (jsRound score)

/-- The trailing-24-hour filter used by `updateMetrics` (source line 341) and
`checkAnomalies` (source line 617). -/
def recent24h (events : List SecurityEvent) (now : ℤ) : List SecurityEvent :=
  events.filter fun e => decide (now - e.timestamp < 24 * 60 * 60 * 1000)

/-- The metrics snapshot computed by `updateMetrics` (source lines 337–368)
from the stored event list and the current time: totals and per-type /
per-severity counts over the entire retained log, the maximal timestamp (0 when
the log is empty), the suspicious-activity score over the trailing 24 hours,
and the banded threat level. -/
def computeMetrics (events : List SecurityEvent) (now : ℤ) : SecurityMetrics :=
  let score := calculateSuspiciousActivityScore (recent24h events now) now
  { totalEvents := events.length
    eventsByType := fun ty => (events.filter fun e => decide (e.type = ty)).length
    eventsBySeverity := fun sv => (events.filter fun e => decide (e.severity = sv)).length
    lastEventTime :=
      if 0 < events.length then ((events.map fun e => e.timestamp).max?).getD 0 else 0
    suspiciousActivityScore := score
    threatLevel :=
      if 80 < score then .critical
      else if 60 < score then .high
      else if 30 < score then .medium
      else .low }

/-- The specification's description of the suspicious-activity score, written
from the spec text (§4.5 / §8): over events from the trailing 24 hours only,
sum `severityBase × max(0.1, 1 − ageHours/24) × typeMultiplier`, round, clamp
to 100.  To be compared against `computeMetrics`. -/
def specSuspiciousScore (events : List SecurityEvent) (now : ℤ) : ℤ :=
  let contributions :=
    (events.filter fun e => decide (now - e.timestamp < 24 * 60 * 60 * 1000)).map
      fun e =>
        sevScore e.severity *
          max (1/10) (1 - (((now : ℚ) - (e.timestamp : ℚ)) / (60 * 60 * 1000)) / 24) *
          typeMult e.type
  min 100 (jsRound contributions.sum)

/-! ## Anomaly detector -/

/-- The distinct 1-minute bucket keys of a recent-event list
(`groupEventsByTimeWindow`, source lines 675–687, with `windowMs = 60000`;
`Math.floor` of an integer-millisecond timestamp over 60000 is floor
division).  Only the multiset of bucket counts feeds the statistics, so the
enumeration order of the JS object's numeric keys is irrelevant. -/
def minuteKeys (recentEvents : List SecurityEvent) : List ℤ :=
  ((recentEvents.map fun e => e.timestamp.fdiv 60000).foldl
    (fun acc k => if k ∈ acc then acc else acc ++ [k]) [])

/-- The per-bucket counts (`Object.values(eventsByMinute)`). -/
def minuteFreqs (recentEvents : List SecurityEvent) : List ℚ :=
  (minuteKeys recentEvents).map fun k =>
    (((recentEvents.filter fun e => decide (e.timestamp.fdiv 60000 = k)).length : ℚ))

/-- The frequency-anomaly condition of `checkAnomalies` (source lines 619–643):
with more than 5 nonempty 1-minute buckets in the trailing 24 hours, the
current minute's count must exceed `mean + 3·stdDev` of the bucket counts.
The square root of the population variance is irrational in general; the test
`cf > mean + 3·√variance` is expressed by the exact rational equivalent
`cf − mean > 0 ∧ (cf − mean)² > 3²·variance`. -/
def freqAnomalyFires (recentEvents : List SecurityEvent) (now : ℤ) : Bool :=
  let freqs := minuteFreqs recentEvents
  if 5 < freqs.length then
    let mean : ℚ := freqs.sum / (freqs.length : ℚ)
    let variance : ℚ := ((freqs.map fun v => (v - mean) ^ 2).sum) / (freqs.length : ℚ)
    let currentFrequency : ℚ :=
      ((recentEvents.filter fun e =>
        decide (e.timestamp.fdiv 60000 = now.fdiv 60000)).length : ℚ)
    decide (0 < currentFrequency - mean) &&
      decide ((ANOMALY_THRESHOLD ^ 2 * variance : ℚ) < ((currentFrequency - mean) ^ 2 : ℚ))
  else false

/-- The synthetic frequency-anomaly event passed to the recursive `logEvent`
call (source lines 630–641).  Its `details` object (observed value, mean,
deviation count) is opaque to every claim. -/
def freqAnomalyEvt : EventIn :=
  { type := .system
    severity := .medium
    source := "anomaly_detector"
    details := .vStr "frequency" }

/-- The event types of a recent-event list in first-occurrence order: the key
insertion order of the `typeFrequencies` reduce object (source lines 646–652),
which `Object.entries` then enumerates. -/
def typesInOrder (recentEvents : List SecurityEvent) : List EventType :=
  (recentEvents.map fun e => e.type).foldl
    (fun acc ty => if ty ∈ acc then acc else acc ++ [ty]) []

/-- Count of recent events of one type (the `typeFrequencies` entry). -/
def typeCount (recentEvents : List SecurityEvent) (ty : EventType) : ℕ :=
  (recentEvents.filter fun e => decide (e.type = ty)).length

/-- The synthetic per-type volume-anomaly event passed to the recursive
`logEvent` call (source lines 656–667). -/
def typeAnomalyEvt (ty : EventType) : EventIn :=
  { type := .system
    severity := .medium
    source := "anomaly_detector"
    details := .vStr ty.str }

/-- The synthetic events that one execution of `checkAnomalies` (source lines
615–670) feeds to recursive `logEvent` calls, in program order: the frequency
anomaly (if it fires) followed by one event per type whose trailing-24h count
exceeds `HIGH_FREQUENCY_THRESHOLD`.  The store is read once at entry, so the
whole list is determined by the store at that instant. -/
def checkAnomaliesSpawns (store : List SecurityEvent) (now : ℤ) : List EventIn :=
  let recentEvents := recent24h store now
  (if freqAnomalyFires recentEvents now then [freqAnomalyEvt] else []) ++
    ((typesInOrder recentEvents).filter fun ty =>
      decide (HIGH_FREQUENCY_THRESHOLD < typeCount recentEvents ty)).map typeAnomalyEvt

/-- A lower bound on the recursion depth of the `logEvent` chain spawned
through `checkAnomalies`: starting from a store state (after the current call's
own append), follow the first synthetic event each nested call spawns, letting
the nested call append it through the capped store append.  The real recursion
also spawns through the remaining anomaly events and through pattern actions,
so its depth is at least this value. -/
def chainDepthLB : ℕ → List SecurityEvent → ℤ → ℕ
  | 0, _, _ => 0
  | fuel + 1, store, now =>
    match checkAnomaliesSpawns store now with
    | [] => 0
    | e :: _ => 1 + chainDepthLB fuel (storeAppend store (mkFullEvent e now)) now

/-! ## getEvents -/

/-- The `criteria` argument of `getEvents` (source lines 750–756). -/
structure GetCriteria where
  type : Option String := none
  severity : Option String := none
  source : Option String := none
  since : Option ℤ := none
  limit : Option ℤ := none

/-- `getEvents` filtering, sorting and limiting (source lines 759–786) as a
pure function of the stored list:
* the type/severity/source filters apply only when the criterion is present and
  truthy (a present empty string is falsy and skips the filter);
* the `since` filter applies when present (`typeof criteria.since === 'number'`)
  and keeps `timestamp >= since`;
* sort newest-first (stable sort with comparator `b.timestamp - a.timestamp`);
* `criteria.limit && criteria.limit > 0` truncates only for a strictly positive
  limit (0 is falsy; a negative limit fails the comparison). -/
def getEventsFilter (events : List SecurityEvent) (c : GetCriteria) :
    List SecurityEvent :=
  let e1 : List SecurityEvent := match c.type with
    | some ty => if ty ≠ "" then events.filter fun e => decide (e.type.str = ty) else events
    | none => events
  let e2 : List SecurityEvent := match c.severity with
    | some sv => if sv ≠ "" then e1.filter fun e => decide (e.severity.str = sv) else e1
    | none => e1
  let e3 : List SecurityEvent := match c.source with
    | some src => if src ≠ "" then e2.filter fun e => decide (e.source = src) else e2
    | none => e2
  let e4 : List SecurityEvent := match c.since with
    | some n => e3.filter fun e => decide (n ≤ e.timestamp)
    | none => e3
  let e5 := e4.mergeSort fun a b => decide (b.timestamp ≤ a.timestamp)
  match c.limit with
  | some l => if 0 < l then e5.take l.toNat else e5
  | none => e5

/-! ## Stateful engine model

The engine's shared mutable state, the persistence collaborator, and the
`try`/`catch` structure of each operation, with JS exceptions explicit.  The
persistence collaborator is adversarial: a `StorageBehavior` chooses, per
primitive, whether its calls reject. -/

/-- The process state touched by the engine: the two persisted blobs (absent
until first written, `removeItem` makes them absent again), the static
`rateLimitTimestamps` list, and the `enabled` flag. -/
structure MonSt where
  events : Option (List SecurityEvent)
  metrics : Option SecurityMetrics
  rlts : List ℤ
  enabled : Bool

/-- Which persistence-collaborator calls reject, and what
`chrome.storage.local` holds for the enabled key (`none` = key absent). -/
structure StorageBehavior where
  getEventsFails : Bool := false
  setEventsFails : Bool := false
  getMetricsFails : Bool := false
  setMetricsFails : Bool := false
  removeEventsFails : Bool := false
  removeMetricsFails : Bool := false
  localGetFails : Bool := false
  localSetFails : Bool := false
  storedEnabled : Option JSValue := none

/-- A stateful computation that may end in a thrown JS exception.  Unlike an
exception monad with rollback, the state reached before the throw is kept —
JavaScript mutations are not undone by `catch`. -/
def MRes (α : Type) : Type := MonSt → Except Unit α × MonSt

/-- Return a value, leaving the state untouched. -/
def mpure {α : Type} (a : α) : MRes α := fun st => (.ok a, st)

/-- Sequencing: a thrown exception short-circuits but keeps the state reached
so far. -/
def mbind {α β : Type} (x : MRes α) (f : α → MRes β) : MRes β := fun st =>
  match x st with
  | (.ok a, st1) => f a st1
  | (.error e, st1) => (.error e, st1)

instance : Monad MRes where
  pure := mpure
  bind := mbind

/-- A thrown exception. -/
def throwM {α : Type} : MRes α := fun st => (.error (), st)

/-- `try { x } catch (e) { h e }`. -/
def tryCatchM {α : Type} (x : MRes α) (h : Unit → MRes α) : MRes α := fun st =>
  match x st with
  | (.ok a, st1) => (.ok a, st1)
  | (.error e, st1) => h e st1

/-- Lift a pure fallible computation (a synchronous JS call that may throw). -/
def liftE {α : Type} (x : Except Unit α) : MRes α := fun st => (x, st)

/-- `SecureStorage.getItem(EVENTS_STORAGE_KEY)`: rejects per the behavior,
otherwise yields the stored list or `null`. -/
def sgetEvents (b : StorageBehavior) : MRes (Option (List SecurityEvent)) :=
  fun st => (if b.getEventsFails then .error () else .ok st.events, st)

/-- `SecureStorage.setItem(EVENTS_STORAGE_KEY, l)`. -/
def ssetEvents (b : StorageBehavior) (l : List SecurityEvent) : MRes Unit :=
  fun st =>
    if b.setEventsFails then (.error (), st)
    else (.ok (), { st with events := some l })

/-- `SecureStorage.getItem(METRICS_STORAGE_KEY)`. -/
def sgetMetrics (b : StorageBehavior) : MRes (Option SecurityMetrics) :=
  fun st => (if b.getMetricsFails then .error () else .ok st.metrics, st)

/-- `SecureStorage.setItem(METRICS_STORAGE_KEY, m)`. -/
def ssetMetrics (b : StorageBehavior) (m : SecurityMetrics) : MRes Unit :=
  fun st =>
    if b.setMetricsFails then (.error (), st)
    else (.ok (), { st with metrics := some m })

/-- `SecureStorage.removeItem(EVENTS_STORAGE_KEY)`. -/
def sremoveEvents (b : StorageBehavior) : MRes Unit :=
  fun st =>
    if b.removeEventsFails then (.error (), st)
    else (.ok (), { st with events := none })

/-- `SecureStorage.removeItem(METRICS_STORAGE_KEY)`. -/
def sremoveMetrics (b : StorageBehavior) : MRes Unit :=
  fun st =>
    if b.removeMetricsFails then (.error (), st)
    else (.ok (), { st with metrics := none })

/-- `chrome.storage.local.get([ENABLED_KEY])` projected to the enabled key. -/
def slocalGet (b : StorageBehavior) : MRes (Option JSValue) :=
  fun st => (if b.localGetFails then .error () else .ok b.storedEnabled, st)

/-- `chrome.storage.local.set(...)` for the enabled key. -/
def slocalSet (b : StorageBehavior) : MRes Unit :=
  fun st => (if b.localSetFails then .error () else .ok (), st)

/-- `getStoredEvents` (source lines 295–302): `getItem(...) || []`, with the
catch degrading to the empty list. -/
def getStoredEventsM (b : StorageBehavior) : MRes (List SecurityEvent) :=
  tryCatchM
    (do
      let r ← sgetEvents b
      pure (r.getD []))
    (fun _ => pure [])

/-- The default metrics structure of `getMetrics` (source lines 309–316). -/
def defaultMetrics : SecurityMetrics :=
  { totalEvents := 0
    eventsByType := fun _ => 0
    eventsBySeverity := fun _ => 0
    lastEventTime := 0
    suspiciousActivityScore := 0
    threatLevel := .low }

/-- `updateMetrics` (source lines 337–372): read the store, recompute the
snapshot wholesale, persist it; any failure is caught and logged. -/
def updateMetricsM (b : StorageBehavior) (now : ℤ) : MRes Unit :=
  tryCatchM
    (do
      let events ← getStoredEventsM b
      ssetMetrics b (computeMetrics events now))
    (fun _ => pure ())

/-- `shouldRateLimit` acting on the shared timestamp list. -/
def shouldRateLimitM (now : ℤ) : MRes Bool :=
  fun st =>
    let r := rlStep now st.rlts
    (.ok r.1, { st with rlts := r.2 })

/-- Reading `this.enabled`. -/
def readEnabledM : MRes Bool := fun st => (.ok st.enabled, st)

/-- The synthetic event of `executeBlockAction` (source lines 566–575). -/
def blockActionEvt : EventIn :=
  { type := .system
    severity := .critical
    source := "security_monitor"
    details := .vStr "blocked" }

/-- The synthetic event of `executeAlertAction` (source lines 594–603). -/
def alertActionEvt : EventIn :=
  { type := .system
    severity := .medium
    source := "security_monitor"
    details := .vStr "alerted" }

mutual

/-- `logEvent` (source lines 202–248).  The whole body is inside
`try { ... } catch { console.error(...) }`, so no error escapes.  The `fuel`
argument models the JavaScript call stack: exhausting it is the `RangeError` a
runaway recursive chain would throw, which the nearest enclosing `try` absorbs
like any other exception. -/
def logEventM (b : StorageBehavior) : ℕ → EventIn → ℤ → MRes Unit
  | 0, _, _ => tryCatchM throwM (fun _ => pure ())
  | fuel + 1, e, now =>
    tryCatchM
      (do
        let en ← readEnabledM
        if !en then pure ()
        else do
          let limited ←
            if e.severity = .low then shouldRateLimitM now else pure false
          if limited then pure ()
          else do
            let full := mkFullEvent e now
            let events ← getStoredEventsM b
            ssetEvents b (storeAppend events full)
            updateMetricsM b now
            checkThreatPatternsM b fuel full now
            checkAnomaliesM b fuel now)
      (fun _ => pure ())

/-- `checkThreatPatterns` (source lines 413–424): read the store, take the
trailing hour, evaluate every configured pattern against the new event, and
handle each pattern whose score reaches its threshold.  No `try` here — errors
propagate to `logEvent`'s catch. -/
def checkThreatPatternsM (b : StorageBehavior) : ℕ → SecurityEvent → ℤ → MRes Unit
  | 0, _, _ => throwM
  | fuel + 1, ev, now => do
    let events ← getStoredEventsM b
    let recentEvents := events.filter fun x => decide (now - x.timestamp < 60 * 60 * 1000)
    threatPatterns.forM fun p => do
      let score ← liftE (evaluateThreatPattern p ev recentEvents now)
      if p.threshold ≤ score then handleThreatDetectionM b fuel p now
      else pure ()

/-- `handleThreatDetection` (source lines 509–554): push the detection record
with no capacity eviction, persist, then execute the configured action, which
for `block` and `alert` recursively logs a synthetic system event. -/
def handleThreatDetectionM (b : StorageBehavior) : ℕ → ThreatPattern → ℤ → MRes Unit
  | 0, _, _ => throwM
  | fuel + 1, p, now => do
    let events ← getStoredEventsM b
    ssetEvents b (detectAppend events (threatEventRec p now))
    match p.action with
    | .block => logEventM b fuel blockActionEvt now
    | .alert => logEventM b fuel alertActionEvt now
    | .log => pure ()

/-- `checkAnomalies` (source lines 615–670): read the store once, then
recursively log each spawned synthetic anomaly event. -/
def checkAnomaliesM (b : StorageBehavior) : ℕ → ℤ → MRes Unit
  | 0, _ => throwM
  | fuel + 1, now => do
    let events ← getStoredEventsM b
    (checkAnomaliesSpawns events now).forM fun e => logEventM b fuel e now

end

/-- `getMetrics` (source lines 307–332): the stored snapshot or the default,
with the catch also degrading to the default. -/
def getMetricsM (b : StorageBehavior) : MRes SecurityMetrics :=
  tryCatchM
    (do
      let r ← sgetMetrics b
      pure (r.getD defaultMetrics))
    (fun _ => pure defaultMetrics)

/-- `getEvents` (source lines 749–791): filter/sort/limit the stored list, with
the catch degrading to the empty list. -/
def getEventsM (b : StorageBehavior) (c : GetCriteria) : MRes (List SecurityEvent) :=
  tryCatchM
    (do
      let events ← getStoredEventsM b
      pure (getEventsFilter events c))
    (fun _ => pure [])

/-- `clearEvents` (source lines 796–805): remove both persisted blobs; the
catch RETHROWS (`throw error`), so a persistence failure escapes to the caller. -/
def clearEventsM (b : StorageBehavior) : MRes Unit :=
  tryCatchM
    (do
      sremoveEvents b
      sremoveMetrics b)
    (fun _ => throwM)

/-- `setEnabled` (source lines 253–260): set the flag, persist it; failures are
caught and only logged. -/
def setEnabledM (b : StorageBehavior) (v : Bool) : MRes Unit :=
  tryCatchM
    (do
      (fun st => (.ok (), { st with enabled := v }) : MRes Unit)
      slocalSet b)
    (fun _ => pure ())

/-- `result[ENABLED_KEY] !== false`: anything other than the literal boolean
`false` — including a missing key or a non-boolean value — reads as enabled. -/
def jsNeqFalse : Option JSValue → Bool
  | some (.vBool false) => false
  | _ => true

/-- `getEnabled` (source lines 262–269): read the setting, default `true` on a
missing/odd value and on failure. -/
def getEnabledM (b : StorageBehavior) : MRes Bool :=
  tryCatchM
    (do
      let r ← slocalGet b
      pure (jsNeqFalse r))
    (fun _ => pure true)

/-- `loadEnabledFromStorage` (source lines 271–278): same read as `getEnabled`,
written to the flag; the catch sets the flag to `true`. -/
def loadEnabledFromStorageM (b : StorageBehavior) : MRes Unit :=
  tryCatchM
    (do
      let r ← slocalGet b
      (fun st => (.ok (), { st with enabled := jsNeqFalse r }) : MRes Unit))
    (fun _ => fun st => (.ok (), { st with enabled := true }))

/-- The `chrome.storage.onChanged` listener body (source lines 283–288):
`this.enabled = changes[ENABLED_KEY].newValue !== false` (a `newValue` of
`undefined`, i.e. key removal, reads as enabled). -/
def storageChangeApply (newValue : Option JSValue) (st : MonSt) : MonSt :=
  { st with enabled := jsNeqFalse newValue }

/-- The record returned by `exportSecurityReport` (source lines 810–815). -/
structure SecurityReport where
  metrics : SecurityMetrics
  recentEvents : List SecurityEvent
  threatPatterns : List ThreatPattern
  exportTime : ℤ

/-- `exportSecurityReport` (source lines 810–833): bundle the metrics, the
last 7 days of events capped at 100, and the pattern table.  Its catch
rethrows, but both callees swallow their own failures. -/
def exportSecurityReportM (b : StorageBehavior) (now : ℤ) : MRes SecurityReport :=
  tryCatchM
    (do
      let metrics ← getMetricsM b
      let recentEvents ← getEventsM b
        { since := some (now - 7 * 24 * 60 * 60 * 1000), limit := some 100 }
      pure
        { metrics := metrics
          recentEvents := recentEvents
          threatPatterns := threatPatterns
          exportTime := now })
    (fun _ => throwM)

/-- The state transformation of a successful `updateMetrics` run on the stored
event list (the caught-failure run leaves the state unchanged and is trivially
idempotent): recompute the snapshot wholesale from the store and overwrite the
metrics blob. -/
def updateMetricsState (st : MonSt) (now : ℤ) : MonSt :=
  { st with metrics := some (computeMetrics (st.events.getD []) now) }

/-! ## Concrete instances used by the claim analyses -/

/-- A stored `tool_usage` event at instant 0 (any call of `logEvent` with a
`tool_usage` payload at that instant produces this record, up to entropy in the
id suffix). -/
def toolUsageEvt : SecurityEvent :=
  { id := generateEventId 0
    type := .tool_usage
    severity := .medium
    timestamp := 0
    source := "tool_runner"
    details := .vUndefined }

/-- A store filled exactly to the `MAX_STORED_EVENTS` cap with fresh
`tool_usage` events. -/
def fullStore : List SecurityEvent :=
  List.replicate MAX_STORED_EVENTS toolUsageEvt

/-- A store of 12 `tool_usage` events inside the trailing 24 hours — the state
of the store right after a `logEvent` call has appended its own event, with the
per-type volume count of `tool_usage` already above `HIGH_FREQUENCY_THRESHOLD`. -/
def store12 : List SecurityEvent :=
  List.replicate 12 toolUsageEvt

/-- A `critical`, `system`-type event logged at instant `now`. -/
def critSystemEvt (now : ℤ) : SecurityEvent :=
  { id := generateEventId now
    type := .system
    severity := .critical
    timestamp := now
    source := "host"
    details := .vUndefined }

/-- A storage behavior whose `removeItem` calls reject. -/
def removeFailsBehavior : StorageBehavior :=
  { removeEventsFails := true, removeMetricsFails := true }

/-- An initial process state: nothing persisted yet, empty rate-limiter list,
monitor enabled. -/
def initialState : MonSt :=
  { events := none, metrics := none, rlts := [], enabled := true }

/-- A call result that is a normal return (no exception escaped). -/
def okRes {α : Type} (r : Except Unit α) : Prop := ∃ a, r = .ok a

/-- Decidable equality of fallible results, for evaluating concrete runs of the
fallible evaluation functions. -/
instance {e a : Type} [DecidableEq e] [DecidableEq a] : DecidableEq (Except e a) := fun x y =>
  match x, y with
  | .ok u, .ok v =>
    if h : u = v then isTrue (by rw [h]) else isFalse (fun hc => h (Except.ok.inj hc))
  | .error u, .error v =>
    if h : u = v then isTrue (by rw [h]) else isFalse (fun hc => h (Except.error.inj hc))
  | .ok _, .error _ => isFalse (fun hc => Except.noConfusion hc)
  | .error _, .ok _ => isFalse (fun hc => Except.noConfusion hc)

/-! ## Helper lemmas -/

@[simp] theorem MRes_bind_eq {α β : Type} (x : MRes α) (f : α → MRes β) :
    (x >>= f) = mbind x f := rfl

@[simp] theorem MRes_pure_eq {α : Type} (a : α) : (pure a : MRes α) = mpure a := rfl

theorem mpure_ok {α : Type} (a : α) (st : MonSt) : okRes ((mpure a st).1) :=
  ⟨a, rfl⟩

theorem mbind_ok {α β : Type} {x : MRes α} {f : α → MRes β}
    (hx : ∀ st, okRes ((x st).1)) (hf : ∀ a st, okRes ((f a st).1)) (st : MonSt) :
    okRes ((mbind x f st).1) := by
  unfold mbind
  rcases h1 : x st with ⟨r, st1⟩
  cases r with
  | ok a => exact hf a st1
  | error e =>
    exfalso
    rcases hx st with ⟨a, ha⟩
    rw [h1] at ha
    simp at ha

theorem tryCatchM_ok_handler {α : Type} (x : MRes α) (h : Unit → MRes α)
    (hh : ∀ u st, okRes ((h u st).1)) (st : MonSt) :
    okRes ((tryCatchM x h st).1) := by
  unfold tryCatchM
  rcases h1 : x st with ⟨r, st1⟩
  cases r with
  | ok a => exact ⟨a, rfl⟩
  | error e => exact hh e st1

theorem tryCatchM_ok_body {α : Type} (x : MRes α) (h : Unit → MRes α)
    (hx : ∀ st, okRes ((x st).1)) (st : MonSt) :
    okRes ((tryCatchM x h st).1) := by
  unfold tryCatchM
  rcases h1 : x st with ⟨r, st1⟩
  cases r with
  | ok a => exact ⟨a, rfl⟩
  | error e =>
    exfalso
    rcases hx st with ⟨a, ha⟩
    rw [h1] at ha
    simp at ha

theorem getStoredEventsM_ok (b : StorageBehavior) (st : MonSt) :
    okRes ((getStoredEventsM b st).1) := by
  apply tryCatchM_ok_handler
  intro u st1
  exact mpure_ok _ _

theorem getMetricsM_ok (b : StorageBehavior) (st : MonSt) :
    okRes ((getMetricsM b st).1) := by
  apply tryCatchM_ok_handler
  intro u st1
  exact mpure_ok _ _

theorem getEventsM_ok (b : StorageBehavior) (c : GetCriteria) (st : MonSt) :
    okRes ((getEventsM b c st).1) := by
  apply tryCatchM_ok_handler
  intro u st1
  exact mpure_ok _ _

theorem setEnabledM_ok (b : StorageBehavior) (v : Bool) (st : MonSt) :
    okRes ((setEnabledM b v st).1) := by
  apply tryCatchM_ok_handler
  intro u st1
  exact mpure_ok _ _

theorem getEnabledM_ok (b : StorageBehavior) (st : MonSt) :
    okRes ((getEnabledM b st).1) := by
  apply tryCatchM_ok_handler
  intro u st1
  exact mpure_ok _ _

theorem exportSecurityReportM_ok (b : StorageBehavior) (now : ℤ) (st : MonSt) :
    okRes ((exportSecurityReportM b now st).1) := by
  apply tryCatchM_ok_body
  intro st1
  rw [MRes_bind_eq]
  apply mbind_ok (getMetricsM_ok b)
  intro m st2
  rw [MRes_bind_eq]
  apply mbind_ok (getEventsM_ok b _)
  intro l st3
  exact mpure_ok _ _

theorem logEventM_ok (b : StorageBehavior) (fuel : ℕ) (e : EventIn) (now : ℤ)
    (st : MonSt) : (logEventM b fuel e now st).1 = .ok () := by
  have h : okRes ((logEventM b fuel e now st).1) := by
    cases fuel with
    | zero =>
      apply tryCatchM_ok_handler
      intro u st1
      exact mpure_ok _ _
    | succ n =>
      apply tryCatchM_ok_handler
      intro u st1
      exact mpure_ok _ _
  rcases h with ⟨a, ha⟩
  rw [ha]

/-! ## Claim theorems -/

/-- C3 (counterexample): the claim that every public operation other than
`initialize()` returns normally under every persistence behaviour is false:
when `SecureStorage.removeItem` rejects, `clearEvents` rethrows the error
across the API boundary (source line 803). -/
theorem C3_clearEvents_throws :
    (clearEventsM removeFailsBehavior initialState).1 = .error () := rfl

/-- C3 (amended): under every persistence behaviour — including all get/set/
remove calls rejecting — `logEvent` (here with any call-stack budget),
`getMetrics`, `getEvents`, `setEnabled`, `getEnabled` and
`exportSecurityReport` return normally, degrading to empty/default results;
`clearEvents` is the one further public operation, besides `initialize()`,
that propagates a persistence error (its catch rethrows). -/
theorem C3_public_surface_total :
    ∀ (b : StorageBehavior) (st : MonSt) (fuel : ℕ) (e : EventIn) (now : ℤ)
      (c : GetCriteria) (v : Bool),
      (logEventM b fuel e now st).1 = .ok ()
      ∧ okRes ((getMetricsM b st).1)
      ∧ okRes ((getEventsM b c st).1)
      ∧ okRes ((setEnabledM b v st).1)
      ∧ okRes ((getEnabledM b st).1)
      ∧ okRes ((exportSecurityReportM b now st).1) := by
  intro b st fuel e now c v
  exact ⟨logEventM_ok b fuel e now st, getMetricsM_ok b st, getEventsM_ok b c st,
    setEnabledM_ok b v st, getEnabledM_ok b st, exportSecurityReportM_ok b now st⟩

/-- C7: metrics recomputation is idempotent.  The snapshot is a pure function
of the stored event list and the clock instant — it never reads the previously
stored metrics — so at the model level: (i) a second successful recomputation
with no intervening event (and hence the same stored list) rewrites the very
same `SecurityMetrics` value and leaves the state fixed; (ii) the computed
snapshot is independent of whatever metrics blob was stored before; (iii) the
same holds for the full effectful `updateMetrics` run under every persistence
behaviour, including rejecting reads/writes. -/
theorem C7_metrics_idempotent :
    ∀ (st : MonSt) (now : ℤ) (m : Option SecurityMetrics) (b : StorageBehavior),
      updateMetricsState (updateMetricsState st now) now = updateMetricsState st now
      ∧ (updateMetricsState { st with metrics := m } now).metrics
          = (updateMetricsState st now).metrics
      ∧ (updateMetricsM b now ((updateMetricsM b now st).2)).2
          = (updateMetricsM b now st).2 := by
  intro st now m b
  refine ⟨rfl, rfl, ?_⟩
  cases hg : b.getEventsFails <;> cases hs : b.setMetricsFails <;>
    simp [updateMetricsM, tryCatchM, getStoredEventsM, sgetEvents, ssetMetrics,
      mbind, mpure, hg, hs]

/-- C9: `getEvents` treats a non-positive limit as no limit — the guard
`criteria.limit && criteria.limit > 0` truncates only for a strictly positive
limit, so a criteria with limit 0 or negative (or absent) returns every event
matching the other filters, untruncated. -/
theorem C9_nonpositive_limit_no_truncation :
    ∀ (events : List SecurityEvent) (c : GetCriteria),
      (c.limit = none ∨ ∃ l, c.limit = some l ∧ l ≤ 0) →
      getEventsFilter events c = getEventsFilter events { c with limit := none } := by
  intro events c h
  unfold getEventsFilter
  rcases h with h | ⟨l, hl, hle⟩
  · rw [h]
  · rw [hl]
    simp only
    rw [if_neg (by omega)]

/-- C9 witness: a criteria with limit −5 on a two-event store. -/
theorem C9_nonpositive_limit_no_truncation_witness :
    (({ limit := some (-5) } : GetCriteria).limit = none
        ∨ ∃ l, ({ limit := some (-5) } : GetCriteria).limit = some l ∧ l ≤ 0)
    ∧ getEventsFilter [toolUsageEvt, critSystemEvt 3] { limit := some (-5) }
        = getEventsFilter [toolUsageEvt, critSystemEvt 3]
            { ({ limit := some (-5) } : GetCriteria) with limit := none } :=
  ⟨Or.inr ⟨-5, rfl, by norm_num⟩,
    C9_nonpositive_limit_no_truncation [toolUsageEvt, critSystemEvt 3] _
      (Or.inr ⟨-5, rfl, by norm_num⟩)⟩

/-- C10: the enabled toggle defaults to `true` for every persisted value other
than the literal boolean `false`: this holds of the raw `!== false` read, of
`getEnabled` (also when the storage read rejects), of the startup load
`loadEnabledFromStorage` (also on failure), and of the storage-change
listener. -/
theorem C10_enabled_defaults :
    (∀ v : JSValue, jsNeqFalse (some v) = true ↔ v ≠ .vBool false)
    ∧ jsNeqFalse none = true
    ∧ (∀ (b : StorageBehavior) (st : MonSt),
        (getEnabledM b st).1
          = .ok (if b.localGetFails then true else jsNeqFalse b.storedEnabled))
    ∧ (∀ (b : StorageBehavior) (st : MonSt),
        ((loadEnabledFromStorageM b st).2).enabled
          = (if b.localGetFails then true else jsNeqFalse b.storedEnabled))
    ∧ (∀ (nv : Option JSValue) (st : MonSt),
        (storageChangeApply nv st).enabled = jsNeqFalse nv) := by
  refine ⟨?_, rfl, ?_, ?_, ?_⟩
  · intro v
    cases v with
    | vBool bb => cases bb <;> simp [jsNeqFalse]
    | vUndefined => simp [jsNeqFalse]
    | vNull => simp [jsNeqFalse]
    | vNum q => simp [jsNeqFalse]
    | vStr s => simp [jsNeqFalse]
    | vRegex t => simp [jsNeqFalse]
  · intro b st
    cases hg : b.localGetFails <;>
      simp [getEnabledM, tryCatchM, slocalGet, mbind, mpure, hg]
  · intro b st
    cases hg : b.localGetFails <;>
      simp [loadEnabledFromStorageM, tryCatchM, slocalGet, mbind, mpure, hg]
  · intro nv st
    rfl

/-- C4 (counterexample): the claim that `compareValues` returns `false` on a
non-regex expected value under the `regex` operator is false — the code only
guards the actual value, so `expected.test(actual)` throws a `TypeError` when
the expected value is, e.g., the number 5 and the actual value is a string. -/
theorem C4_regex_nonregex_expected_throws :
    compareValues (.vStr "abc") "regex" (.vNum 5) = .error () := rfl

/-- C4 (amended): `compareValues` is total and boolean for `equals`,
`greater_than` and `less_than` over all value types, and returns `false` (not
an error) on a non-string actual for `contains`/`regex` and a non-numeric
actual for `greater_than`/`less_than`; but it is not total everywhere: it
throws exactly when the actual value is a string and either the operator is
`regex` with a non-regex expected value, or the operator is `contains` with a
regex expected value. -/
theorem C4_compareValues_amended :
    (∀ (a e : JSValue) (op : String),
        compareValues a op e = .error () ↔
          a.isStr = true ∧
            ((op = "regex" ∧ e.isRegex = false) ∨ (op = "contains" ∧ e.isRegex = true)))
    ∧ (∀ a e : JSValue, a.isStr = false →
        compareValues a "contains" e = .ok false ∧ compareValues a "regex" e = .ok false)
    ∧ (∀ a e : JSValue, a.isNum = false →
        compareValues a "greater_than" e = .ok false
          ∧ compareValues a "less_than" e = .ok false) := by
  refine ⟨?_, ?_, ?_⟩
  · intro a e op
    unfold compareValues
    by_cases h1 : op = "equals"
    · subst h1
      simp [JSValue.isStr]
    · rw [if_neg h1]
      by_cases h2 : op = "contains"
      · subst h2
        cases a <;> cases e <;> simp [JSValue.isStr, JSValue.isRegex]
      · rw [if_neg h2]
        by_cases h3 : op = "greater_than"
        · subst h3
          cases a <;> simp [JSValue.isStr]
        · rw [if_neg h3]
          by_cases h4 : op = "less_than"
          · subst h4
            cases a <;> simp [JSValue.isStr]
          · rw [if_neg h4]
            by_cases h5 : op = "regex"
            · subst h5
              cases a <;> cases e <;> simp [JSValue.isStr, JSValue.isRegex]
            · rw [if_neg h5]
              simp [h2, h5]
  · intro a e ha
    cases a <;> simp_all [JSValue.isStr, compareValues]
  · intro a e ha
    cases a <;> simp_all [JSValue.isNum, compareValues]

/-- C4 witness: the amended mismatch clauses at concrete values — a numeric
actual under `contains` and `regex`, and a string actual under the numeric
comparisons. -/
theorem C4_compareValues_amended_witness :
    (JSValue.isStr (.vNum 3) = false
      ∧ compareValues (.vNum 3) "contains" (.vStr "x") = .ok false
      ∧ compareValues (.vNum 3) "regex" (.vStr "x") = .ok false)
    ∧ (JSValue.isNum (.vStr "q") = false
      ∧ compareValues (.vStr "q") "greater_than" (.vNum 1) = .ok false
      ∧ compareValues (.vStr "q") "less_than" (.vNum 1) = .ok false) := by
  have h2 := C4_compareValues_amended.2.1 (.vNum 3) (.vStr "x") rfl
  have h3 := C4_compareValues_amended.2.2 (.vStr "q") (.vNum 1) rfl
  exact ⟨⟨rfl, h2.1, h2.2⟩, ⟨rfl, h3.1, h3.2⟩⟩

theorem fullStore_filter_eq (p : SecurityEvent → Bool) (hp : p toolUsageEvt = true) :
    fullStore.filter p = fullStore := by
  apply List.filter_eq_self.mpr
  intro a ha
  have h2 : a = toolUsageEvt :=
    List.eq_of_mem_replicate (by simpa [fullStore] using ha)
  rw [h2]
  exact hp

theorem fullStore_length : fullStore.length = MAX_STORED_EVENTS :=
  List.length_replicate _ _

set_option maxRecDepth 40000 in
/-- C1 (code bug): at a store filled exactly to the 1000-event cap with
`tool_usage` events of the last minute, logging one more `tool_usage` event
fires `rapid_tool_usage` (its single indicator `count_per_minute > 20` matches
with weight 1 ≥ threshold 1), and `handleThreatDetection` then appends its
synthetic detection record and persists 1001 events: the `detectAppend` write
performs no capacity eviction (the `splice` exists only in `logEvent`), so this
append leaves the stored count strictly above `MAX_STORED_EVENTS`, violating
the claimed invariant. -/
theorem C1_detection_append_exceeds_cap :
    rapidToolUsagePattern ∈ threatPatterns
    ∧ evaluateThreatPattern rapidToolUsagePattern toolUsageEvt
        (fullStore.filter fun x => decide ((0 : ℤ) - x.timestamp < 60 * 60 * 1000)) 0
        = .ok 1
    ∧ rapidToolUsagePattern.threshold ≤ 1
    ∧ (detectAppend fullStore (threatEventRec rapidToolUsagePattern 0)).length
        = MAX_STORED_EVENTS + 1
    ∧ MAX_STORED_EVENTS
        < (detectAppend fullStore (threatEventRec rapidToolUsagePattern 0)).length := by
  have hhour : (fullStore.filter fun x =>
      decide ((0 : ℤ) - x.timestamp < 60 * 60 * 1000)) = fullStore :=
    fullStore_filter_eq _ (by decide)
  have hminute : (fullStore.filter fun x =>
      decide ((0 : ℤ) - 60 * 1000 < x.timestamp)
        && decide (x.type = EventType.tool_usage)).length = MAX_STORED_EVENTS := by
    rw [fullStore_filter_eq _ (by decide)]
    exact fullStore_length
  have hlen : (detectAppend fullStore (threatEventRec rapidToolUsagePattern 0)).length
      = MAX_STORED_EVENTS + 1 := by
    unfold detectAppend
    rw [List.length_append, fullStore_length]
    rfl
  refine ⟨by simp [threatPatterns], ?_, by norm_num [rapidToolUsagePattern], hlen, ?_⟩
  · rw [hhour]
    have hcnt : ((20 : ℚ) < ((MAX_STORED_EVENTS : ℕ) : ℚ)) := by
      norm_num [MAX_STORED_EVENTS]
    simp only [evaluateThreatPattern, rapidToolUsagePattern, matchesIndicator,
      List.foldlM, toolUsageEvt, EventType.str]
    rw [hminute]
    simp [compareValues, jsNumGt, jsToNumber, hcnt, zero_add]
  · rw [hlen]
    norm_num

theorem foldl_add_eq_sum (f : SecurityEvent → ℚ) (l : List SecurityEvent) :
    ∀ init : ℚ, l.foldl (fun acc e => acc + f e) init = init + (l.map f).sum := by
  induction l with
  | nil => intro init; simp
  | cons a t ih =>
    intro init
    simp [List.foldl_cons, ih, add_assoc]

/-- C6: the suspicious-activity score of the recomputed metrics snapshot equals
the specification formula — the rounded, 100-clamped sum, over exactly the
events of the trailing 24 hours, of severity base (1/5/15/25) × time decay
`max(0.1, 1 − ageHours/24)` × type multiplier (1.5/2.0/1.2/1.8/1.0/1.3) — and
in particular a single `critical`, `system`-type event logged at the current
instant scores `round(25 × 1.0 × 1.3) = 33`. -/
theorem C6_suspicious_score :
    ∀ (events : List SecurityEvent) (now : ℤ),
      (computeMetrics events now).suspiciousActivityScore = specSuspiciousScore events now
      ∧ (computeMetrics [critSystemEvt now] now).suspiciousActivityScore = 33 := by
  have key : ∀ (events : List SecurityEvent) (now : ℤ),
      (computeMetrics events now).suspiciousActivityScore
        = specSuspiciousScore events now := by
    intro events now
    simp only [computeMetrics, specSuspiciousScore, recent24h,
      calculateSuspiciousActivityScore]
    rw [foldl_add_eq_sum, zero_add]
  intro events now
  refine ⟨key events now, ?_⟩
  rw [key]
  simp only [specSuspiciousScore, critSystemEvt, sevScore, typeMult]
  norm_num [jsRound, round_eq]

/-- C8: for every stored event list and timestamp `t`, `getEvents` with
criteria `since = t` returns a permutation of exactly the stored events with
`timestamp ≥ t` (so every such event, and no others), sorted in descending
timestamp order. -/
theorem C8_getEvents_since :
    ∀ (events : List SecurityEvent) (t : ℤ),
      List.Perm (getEventsFilter events { since := some t })
          (events.filter fun e => decide (t ≤ e.timestamp))
      ∧ List.Pairwise (fun a b : SecurityEvent => b.timestamp ≤ a.timestamp)
          (getEventsFilter events { since := some t }) := by
  intro events t
  have hform : getEventsFilter events { since := some t }
      = (events.filter fun e => decide (t ≤ e.timestamp)).mergeSort
          (fun a b => decide (b.timestamp ≤ a.timestamp)) := by
    simp [getEventsFilter]
  constructor
  · rw [hform]
    exact List.mergeSort_perm _ _
  · rw [hform]
    have hs := @List.sorted_mergeSort SecurityEvent
      (fun a b : SecurityEvent => decide (b.timestamp ≤ a.timestamp))
      (fun a b c hab hbc => by
        simp only [decide_eq_true_eq] at hab hbc ⊢
        omega)
      (fun a b => by
        simp only [Bool.or_eq_true, decide_eq_true_eq]
        omega)
      (events.filter fun e => decide (t ≤ e.timestamp))
    exact hs.imp (fun h => by simpa using h)

/-- C2 (counterexample): the recursion bound of one level is false.  From a
store of 12 `tool_usage` events inside the trailing 24 hours (the state right
after a `logEvent` call appended its own event), `checkAnomalies` spawns a
synthetic anomaly `logEvent` (depth 1, since `tool_usage` count 12 > 10), and
the store as that nested call leaves it makes its own `checkAnomalies` spawn
again (the `tool_usage` count is still 12 > 10 — `checkAnomalies` applies no
type or source exemption to synthetic events), giving a chain of recursive
`logEvent` invocations of depth at least 2. -/
theorem C2_recursion_depth_two : chainDepthLB 2 store12 0 = 2 := by decide

/-- C2 (amended): synthetic `system` events cannot re-fire the pattern engine —
every configured pattern scores 0 on an event of type `system`, because no
configured indicator has type `"system"` — but they are not exempt from
anomaly evaluation, which can spawn a further recursive `logEvent` beyond
depth one (see the counterexample), so the recursion is bounded by the call
stack, not by one level. -/
theorem C2_system_events_no_pattern_refire :
    ∀ p ∈ threatPatterns,
      ∀ (e : SecurityEvent) (recentEvents : List SecurityEvent) (now : ℤ),
        e.type = .system → evaluateThreatPattern p e recentEvents now = .ok 0 := by
  intro p hp e recent now ht
  fin_cases hp <;>
    (simp [evaluateThreatPattern, rapidToolUsagePattern, ht, EventType.str, List.foldlM]
     rfl)

/-- C2 witness: the first configured pattern scores 0 on the synthetic
frequency-anomaly event. -/
theorem C2_system_events_no_pattern_refire_witness :
    (rapidToolUsagePattern ∈ threatPatterns
      ∧ (mkFullEvent freqAnomalyEvt 0).type = .system)
    ∧ evaluateThreatPattern rapidToolUsagePattern (mkFullEvent freqAnomalyEvt 0) [] 0
        = .ok 0 :=
  ⟨⟨by simp [threatPatterns], rfl⟩,
    C2_system_events_no_pattern_refire rapidToolUsagePattern (by simp [threatPatterns])
      (mkFullEvent freqAnomalyEvt 0) [] 0 rfl⟩

theorem length_filter_mono {α : Type} (l : List α) (p q : α → Bool)
    (h : ∀ a ∈ l, p a = true → q a = true) :
    (l.filter p).length ≤ (l.filter q).length := by
  induction l with
  | nil => simp
  | cons a t ih =>
    have ht : ∀ x ∈ t, p x = true → q x = true :=
      fun x hx => h x (List.mem_cons_of_mem a hx)
    by_cases hp : p a = true
    · have hq := h a (List.mem_cons_self a t) hp
      simp only [List.filter_cons, hp, hq, if_true, List.length_cons]
      exact Nat.succ_le_succ (ih ht)
    · have hp2 : p a = false := by simpa using hp
      cases hq : q a with
      | false =>
        simp only [List.filter_cons, hp2, hq, Bool.false_eq_true, if_false]
        exact ih ht
      | true =>
        simp only [List.filter_cons, hp2, hq, Bool.false_eq_true, if_false,
          if_true, List.length_cons]
        exact Nat.le_succ_of_le (ih ht)

theorem winCount_append (adm : List ℤ) (m T : ℤ)
    (hcap : (adm.filter fun t => decide (m - t < RATE_LIMIT_WINDOW)).length
        < RATE_LIMIT_MAX_EVENTS)
    (hprev : winCount adm T ≤ RATE_LIMIT_MAX_EVENTS) :
    winCount (adm ++ [m]) T ≤ RATE_LIMIT_MAX_EVENTS := by
  unfold winCount at *
  rw [List.filter_append, List.length_append]
  by_cases hm : (decide (T - RATE_LIMIT_WINDOW < m) && decide (m ≤ T)) = true
  · have hm2 : T - RATE_LIMIT_WINDOW < m ∧ m ≤ T := by simpa using hm
    have h1 : (([m] : List ℤ).filter fun t =>
        decide (T - RATE_LIMIT_WINDOW < t) && decide (t ≤ T)).length ≤ 1 := by
      simp [List.filter_cons, hm2]
    have h2 : (adm.filter fun t =>
        decide (T - RATE_LIMIT_WINDOW < t) && decide (t ≤ T)).length
        ≤ (adm.filter fun t => decide (m - t < RATE_LIMIT_WINDOW)).length := by
      apply length_filter_mono
      intro a _ hp
      simp only [Bool.and_eq_true, decide_eq_true_eq] at hp
      simp only [decide_eq_true_eq]
      linarith [hm2.1, hm2.2, hp.1, hp.2]
    omega
  · have hm2 : (decide (T - RATE_LIMIT_WINDOW < m) && decide (m ≤ T)) = false := by
      simpa using hm
    have h0 : (([m] : List ℤ).filter fun t =>
        decide (T - RATE_LIMIT_WINDOW < t) && decide (t ≤ T)).length = 0 := by
      simp [List.filter_cons, hm2]
    omega

theorem timesMonoB_mono {t0 t1 : ℤ} (h : t0 ≤ t1) (l : List (Severity × ℤ))
    (hl : timesMonoB t1 l = true) : timesMonoB t0 l = true := by
  cases l with
  | nil => rfl
  | cons hd tl =>
    obtain ⟨s, t⟩ := hd
    simp only [timesMonoB, Bool.and_eq_true, decide_eq_true_eq] at hl ⊢
    exact ⟨le_trans h hl.1, hl.2⟩

theorem runRL_window_bound :
    ∀ (run : List (Severity × ℤ)) (told : ℤ) (ts adm : List ℤ),
      timesMonoB told run = true →
      (∀ t ∈ adm, t ≤ told) →
      ts = adm.filter (fun t => decide (told - t < RATE_LIMIT_WINDOW)) →
      (∀ T, winCount adm T ≤ RATE_LIMIT_MAX_EVENTS) →
      ∀ T, winCount (runRL run ts adm).2 T ≤ RATE_LIMIT_MAX_EVENTS := by
  intro run
  induction run with
  | nil =>
    intro told ts adm hmono hall hts hcnt T
    simpa [runRL] using hcnt T
  | cons hd rest ih =>
    intro told ts adm hmono hall hts hcnt T
    obtain ⟨s, t1⟩ := hd
    have hm1 : told ≤ t1 := by
      simp only [timesMonoB, Bool.and_eq_true, decide_eq_true_eq] at hmono
      exact hmono.1
    have hm2 : timesMonoB t1 rest = true := by
      simp only [timesMonoB, Bool.and_eq_true, decide_eq_true_eq] at hmono
      exact hmono.2
    have hall1 : ∀ t ∈ adm, t ≤ t1 := fun t ht => le_trans (hall t ht) hm1
    have hkept : ts.filter (fun t => decide (t1 - t < RATE_LIMIT_WINDOW))
        = adm.filter (fun t => decide (t1 - t < RATE_LIMIT_WINDOW)) := by
      rw [hts, List.filter_filter]
      apply List.filter_congr
      intro a _
      by_cases h : t1 - a < RATE_LIMIT_WINDOW
      · have h2 : told - a < RATE_LIMIT_WINDOW := by linarith
        simp [h, h2]
      · simp [h]
    by_cases hs : s = Severity.low
    · rw [runRL, if_pos hs]
      simp only [rlStep, hkept]
      by_cases hfull : RATE_LIMIT_MAX_EVENTS
          ≤ (adm.filter fun t => decide (t1 - t < RATE_LIMIT_WINDOW)).length
      · rw [if_pos hfull]
        simp only [if_true]
        exact ih t1 _ adm hm2 hall1 rfl hcnt T
      · rw [if_neg hfull]
        simp only [Bool.false_eq_true, if_false]
        apply ih t1 _ (adm ++ [t1]) hm2
        · intro t ht
          rcases List.mem_append.mp ht with h | h
          · exact hall1 t h
          · simp only [List.mem_singleton] at h
            omega
        · rw [List.filter_append]
          congr 1
          simp [RATE_LIMIT_WINDOW]
        · intro T2
          exact winCount_append adm t1 T2 (Nat.lt_of_not_le hfull) (hcnt T2)
    · rw [runRL, if_neg hs]
      exact ih told ts adm (timesMonoB_mono hm1 rest hm2) hall hts hcnt T

/-- C5: the rate limiter.  (i) For every sequence of `logEvent` calls with
monotone clock readings, starting from the engine's initial empty rate-limiter
state, the low-severity events admitted to the store number at most
`RATE_LIMIT_MAX_EVENTS` (5) in every rolling 1-second window; (ii) a rejected
call records no timestamp — the state after a rejecting `shouldRateLimit` call
is exactly the pruned previous state, with nothing added; (iii) events of
severity other than `low` bypass the gate entirely: they are admitted and the
rate-limiter state is untouched, regardless of volume. -/
theorem C5_rate_limiter :
    (∀ (run : List (Severity × ℤ)) (t0 : ℤ),
        timesMonoB t0 run = true →
        ∀ T : ℤ, winCount (runRL run [] []).2 T ≤ RATE_LIMIT_MAX_EVENTS)
    ∧ (∀ (now : ℤ) (ts : List ℤ),
        (rlStep now ts).1 = true →
        (rlStep now ts).2 = ts.filter fun t => decide (now - t < RATE_LIMIT_WINDOW))
    ∧ (∀ (s : Severity) (now : ℤ) (ts : List ℤ),
        s ≠ Severity.low → logGate s now ts = (true, ts)) := by
  refine ⟨?_, ?_, ?_⟩
  · intro run t0 hmono T
    apply runRL_window_bound run t0 [] [] hmono
    · intro t ht
      simp at ht
    · simp
    · intro T2
      simp [winCount]
  · intro now ts h
    unfold rlStep at *
    by_cases hc : RATE_LIMIT_MAX_EVENTS
        ≤ (ts.filter fun t => decide (now - t < RATE_LIMIT_WINDOW)).length
    · simp [hc]
    · simp [hc] at h
  · intro s now ts hs
    simp [logGate, hs]

/-- C5 witness: a burst of seven rapid low-severity events at one instant, a
rejecting call on a full window, and a medium-severity event bypassing the
gate. -/
theorem C5_rate_limiter_witness :
    (timesMonoB 0 [(Severity.low, 0), (Severity.low, 0), (Severity.low, 0),
          (Severity.low, 0), (Severity.low, 0), (Severity.low, 0), (Severity.low, 0)]
        = true
      ∧ winCount (runRL [(Severity.low, 0), (Severity.low, 0), (Severity.low, 0),
          (Severity.low, 0), (Severity.low, 0), (Severity.low, 0), (Severity.low, 0)]
          [] []).2 0 ≤ RATE_LIMIT_MAX_EVENTS)
    ∧ ((rlStep 10 [9, 9, 9, 9, 9]).1 = true
      ∧ (rlStep 10 [9, 9, 9, 9, 9]).2
          = [9, 9, 9, 9, 9].filter fun t => decide ((10 : ℤ) - t < RATE_LIMIT_WINDOW))
    ∧ (Severity.medium ≠ Severity.low
      ∧ logGate Severity.medium 5 [1, 2] = (true, [1, 2])) :=
  ⟨⟨by decide, C5_rate_limiter.1 _ 0 (by decide) 0⟩,
   ⟨by decide, C5_rate_limiter.2.1 10 [9, 9, 9, 9, 9] (by decide)⟩,
   ⟨by decide, C5_rate_limiter.2.2 Severity.medium 5 [1, 2] (by decide)⟩⟩
